import Mathlib

/-!
Shallow embedding of the LitMeta service's two decision engines:

* `cite_verify` — citation cross-verification against Crossref / PubMed /
  DOI.org (source file `引文核验：交叉比对 Crossref / PubMed / DOI.org`).
  External HTTP calls are modelled as oracle outcomes (`CrOutcome`,
  `PmOutcome`, `DoiOutcome`) carrying exactly the data the code reads from
  the upstream responses; `difflib.SequenceMatcher(...).ratio()` is an
  oracle function `simFn : Strg → Strg → ℚ`.

* `validate_quotes` — quote/page validation (`src/main.py`).  Base64
  decoding, PDF extraction and the document fetch are oracles
  (`B64Desc`, `UrlDesc`, `RawDoc`) carrying what the code observes of
  them; exceptions raised inside the handler body are modelled with
  `Except Fault`, the outer try/except is the boundary wrapper.

Text that undergoes character-level processing (titles, quotes, page
texts, URLs) is `List Char`; python's `\s` is modelled on the ASCII
whitespace set.  Tags, reason codes and error strings are `String`.
-/

namespace LitMeta

/-- Character-list strings, used wherever the code processes text. -/
abbrev Strg := List Char

/-- Python `s.lower()` (restricted to per-character lowering). -/
def lowerStr (s : Strg) : Strg := s.map Char.toLower

/-! ## Citation matcher (`cite_verify`) -/

/-- One Crossref item as read by the code: `title` and `container-title`
are string lists (`[]` models a missing or empty field, turned into
`[""]` by the `or [""]` fallback), `dateParts` is
`issued.date-parts` (`none` models a missing `issued` or null
`date-parts`). -/
structure CrItem where
  title : List Strg
  containerTitle : List Strg
  dateParts : Option (List (List Int))
  doi : Strg
  url : Strg
deriving DecidableEq

/-- The Crossref HTTP response as observed: status code and
`message.items` (`[]` covers a missing `message`/`items` or an empty
list). -/
structure CrResp where
  status : Nat
  items : List CrItem
deriving DecidableEq

/-- Outcome of the Crossref lookup: an exception anywhere in the `try`
block, or a decoded response. -/
inductive CrOutcome
  | exn (e : String)
  | resp (r : CrResp)
deriving DecidableEq

/-- The PubMed article fields the code reads after `xmltodict` parsing:
`ArticleTitle`, `Journal.Title`, and the `PubDate.Year` string
(`none` models a missing/empty field, replaced by `"0"` via `or "0"`). -/
structure PmArticle where
  title : Strg
  journal : Strg
  yearField : Option Strg
deriving DecidableEq

/-- Outcome of the PubMed lookup: an exception anywhere in the `try`
block, an empty `idlist` (nothing recorded), or a fetched and parsed
article for the first id. -/
inductive PmOutcome
  | exn (e : String)
  | noneFound
  | found (pmid : Strg) (art : PmArticle)
deriving DecidableEq

/-- Outcome of `doi_resolve` as ducked by the code (`doi_resolve` itself
is not under `src/`; the fields modelled are exactly those lines 54–58
read: `ok`, `title`, `journal`, `year`, `source_url`): an exception, a
non-dict / not-`ok` result (nothing recorded), or an `ok` dict whose
`title` and `year` may be null. -/
inductive DoiOutcome
  | exn (e : String)
  | notOk
  | ok (title : Option Strg) (journal : Strg) (year : Option Int) (source_url : Strg)
deriving DecidableEq

/-- One vote: `(source name, match flag)`. -/
abbrev Vote := String × Bool

/-- A per-source record appended to `sources`: a full candidate record,
the DOI.org variant (which stores the raw possibly-null title and year),
or an error stub `{"via": ..., "error": str(e)}`. -/
inductive SrcRec
  | found (via : String) (title : Strg) (journal : Strg) (year : Int)
      (ident : Strg) (url : Strg) (sim : ℚ)
  | foundDoi (via : String) (title : Option Strg) (journal : Strg)
      (year : Option Int) (ident : Strg) (url : Strg) (sim : ℚ)
  | error (via : String) (e : String)
deriving DecidableEq

/-- `(it.get("title") or [""])[0]`: first element of a string list, or
`""` when the list is missing/empty. -/
def firstOr (l : List Strg) : Strg :=
  match l with
  | [] => []
  | a :: _ => a

/-- `(it.get("issued", {}).get("date-parts") or [[0]])[0][0]`.
`none` is returned exactly when python raises `IndexError`: the
`date-parts` list is non-empty (so the `or [[0]]` fallback is skipped)
but its first tuple is empty. -/
def crYearExtract (dp : Option (List (List Int))) : Option Int :=
  let l := match dp with
    | none => [[0]]
    | some x => if x.isEmpty then [[0]] else x
  match l with
  | [] => none
  | t :: _ => t.head?

/-- Spec-side year extraction, following the spec's words for the
refinement comparison in the amended Crossref-year theorem: "year (first
date-part tuple's first element, or 0)" — the first element of the first
date-part tuple when it exists, 0 in every other case. -/
def specCrYear : Option (List (List Int)) → Int
  | some ((a :: _) :: _) => a
  | _ => 0

/-- The vote formula shared by all three sources:
`match = (sim >= 0.9) and ((year == 0) or (abs(candYear - year) <= 1))`. -/
def voteMatch (sim : ℚ) (year candYear : Int) : Bool :=
  decide (mkRat 9 10 ≤ sim) && (year == 0 || (candYear - year).natAbs ≤ 1)

/-- Python message of an `IndexError` from `list[0]` on an empty list. -/
def indexErrorMsg : String := "list index out of range"

/-- The Crossref block of `cite_verify` (lines 8–24): on HTTP 200 with a
non-empty item list, extract title/journal/year, compute similarity and
cast one vote; an empty first date-part tuple raises `IndexError`,
caught by the `except` into an error record; any other exception
likewise; a non-200 or empty response records nothing. -/
def crossrefBranch (simFn : Strg → Strg → ℚ) (title : Strg) (year : Int) :
    CrOutcome → List Vote × List SrcRec
  | .exn e => ([], [.error "crossref" e])
  | .resp r =>
    if r.status = 200 then
      match r.items with
      | [] => ([], [])
      | it :: _ =>
        let crTitle := firstOr it.title
        let crJour := firstOr it.containerTitle
        match crYearExtract it.dateParts with
        | none => ([], [.error "crossref" indexErrorMsg])
        | some crYear =>
          let sim := simFn (lowerStr title) (lowerStr crTitle)
          ([("crossref", voteMatch sim year crYear)],
           [.found "crossref" crTitle crJour crYear it.doi it.url sim])
    else ([], [])

/-- Digits-to-number reading of a digit string (python `int` on a string
of digits). -/
def digitsToNat (s : Strg) : Nat :=
  s.foldl (fun a c => a * 10 + (c.toNat - 48)) 0

/-- PubMed year parsing (lines 41–42):
`y = ...get("Year") or "0"; int(str(y)[:4]) if str(y)[:4].isdigit() else 0`. -/
def pmYearParse (y : Option Strg) : Int :=
  let ys := match y with
    | none => ['0']
    | some s => if s.isEmpty then ['0'] else s
  let t := ys.take 4
  if t ≠ [] ∧ t.all Char.isDigit then (digitsToNat t : Int) else 0

/-- The PubMed block of `cite_verify` (lines 26–48). -/
def pubmedBranch (simFn : Strg → Strg → ℚ) (title : Strg) (year : Int) :
    PmOutcome → List Vote × List SrcRec
  | .exn e => ([], [.error "pubmed" e])
  | .noneFound => ([], [])
  | .found pmid art =>
    let pmYear := pmYearParse art.yearField
    let sim := simFn (lowerStr title) (lowerStr art.title)
    ([("pubmed", voteMatch sim year pmYear)],
     [.found "pubmed" art.title art.journal pmYear pmid
       ("https://pubmed.ncbi.nlm.nih.gov/".toList ++ pmid ++ "/".toList) sim])

/-- The DOI.org block of `cite_verify` (lines 50–60): only entered when a
DOI was supplied (`if doi:`); `dr["title"] or ""` and `dr["year"] or 0`
default the null fields for the similarity/vote computation while the
record keeps the raw values. -/
def doiBranch (simFn : Strg → Strg → ℚ) (title : Strg) (year : Int) (doi : Strg) :
    DoiOutcome → List Vote × List SrcRec := fun o =>
  if doi.isEmpty then ([], [])
  else
    match o with
    | .exn e => ([], [.error "doi.org" e])
    | .notOk => ([], [])
    | .ok t j y u =>
      let sim := simFn (lowerStr title) (lowerStr (t.getD []))
      ([("doi.org", voteMatch sim year (y.getD 0))],
       [.foundDoi "doi.org" t j y doi u sim])

/-- The verdict returned by `cite_verify` (the `inputs` echo field is
omitted: it is a verbatim copy of the arguments). -/
structure Verdict where
  status : String
  votes : List Vote
  sources : List SrcRec
deriving DecidableEq

/-- Lines 62–63: `ok_votes = sum(1 for _, m in votes if m)` and
`status = "verified" if ok_votes >= 1 else ("mismatch" if votes else "unverified")`. -/
def overallStatus (votes : List Vote) : String :=
  if votes.countP (fun v => v.2) ≥ 1 then "verified"
  else if votes = [] then "unverified" else "mismatch"

/-- `cite_verify` (lines 1–64): run the three independent blocks, then
aggregate the votes (the `inputs` echo field is a verbatim copy of the
arguments and is omitted). -/
def cite_verify (simFn : Strg → Strg → ℚ) (title : Strg) (year : Int) (doi : Strg)
    (co : CrOutcome) (po : PmOutcome) (od : DoiOutcome) : Verdict :=
  let cr := crossrefBranch simFn title year co
  let pm := pubmedBranch simFn title year po
  let dv := doiBranch simFn title year doi od
  let votes := cr.1 ++ pm.1 ++ dv.1
  { status := overallStatus votes,
    votes := votes,
    sources := cr.2 ++ pm.2 ++ dv.2 }

/-! ## Quote validator (`validate_quotes`, `src/main.py`) -/

/-- `MAX_B64_BYTES = 15 * 1024 * 1024` (main.py line 41). -/
def MAX_B64_BYTES : Nat := 15 * 1024 * 1024

/-- `MAX_PARAS_PER_CALL = 100` (main.py line 42). -/
def MAX_PARAS_PER_CALL : Nat := 100

/-- Python regex `\s` / `str.strip` whitespace, modelled on the ASCII
whitespace characters. -/
def isPyWS (c : Char) : Bool :=
  c = ' ' || c = '\t' || c = '\n' || c = '\r' || c = '\x0b' || c = '\x0c'

/-- `re.sub(r"\s+", " ", s)`: collapse each maximal whitespace run to a
single space. -/
def collapseWS : Strg → Strg
  | [] => []
  | [c] => if isPyWS c then [' '] else [c]
  | c1 :: c2 :: rest =>
    if isPyWS c1 && isPyWS c2 then collapseWS (c2 :: rest)
    else (if isPyWS c1 then ' ' else c1) :: collapseWS (c2 :: rest)

/-- Drop a trailing run of characters satisfying `p`. -/
def dropTrailing (p : Char → Bool) (l : Strg) : Strg :=
  (l.reverse.dropWhile p).reverse

/-- Python `str.strip()`. -/
def stripStr (s : Strg) : Strg :=
  dropTrailing isPyWS (s.dropWhile isPyWS)

/-- `norm(s) = re.sub(r"\s+", " ", s).strip()` (main.py lines 45–46). -/
def norm (s : Strg) : Strg := stripStr (collapseWS s)

/-- Python substring test `q in hay` (contiguous, case-sensitive;
`"" in s` is `True`). -/
def strContains (q : Strg) : Strg → Bool
  | [] => q.isEmpty
  | c :: rest => q.isPrefixOf (c :: rest) || strContains q rest

/-- The `source_page` field of one paragraph item as the code observes
it: absent (`get` default `1`), an integer value `n` (`int(...)`
succeeds), or a value on which `int(...)` raises (non-numeric string,
null, ...). -/
inductive PageField
  | absent
  | num (n : Int)
  | bad (s : String)
deriving DecidableEq

/-- One paragraph claim: `source_quote` (`none` models a missing or null
field, on which `norm` raises `TypeError`) and `source_page`. -/
structure Para where
  source_quote : Option Strg
  source_page : PageField
deriving DecidableEq

/-- An exception escaping the per-claim code, caught only by the
outermost handler: python type name and message. -/
structure Fault where
  category : String
  msg : String
deriving DecidableEq

/-- The `TypeError` raised by `re.sub` on a non-string `source_quote`. -/
def normNoneFault : Fault :=
  ⟨"TypeError", "expected string or bytes-like object"⟩

/-- `pg = int(item.get("source_page", 1)) - 1`, with the inner
`try/except` mapping a failed conversion to `-1` (lines 320–323). -/
def pageIdx : PageField → Int
  | .absent => 0
  | .num n => n - 1
  | .bad _ => -1

/-- Outcome of one claim inside the matching loop. -/
inductive ClaimOutcome
  | matched
  | mismatch (reason : String)
deriving DecidableEq

/-- One iteration of the matching loop (lines 317–333) for one item:
normalize the quote (raising on a missing quote), resolve the page
index, flag `invalid_page_or_empty_quote` on a bad index or empty
quote, otherwise test substring containment on the normalized page. -/
def checkOne (pages : List Strg) (it : Para) : Except Fault ClaimOutcome :=
  match it.source_quote with
  | none => .error normNoneFault
  | some sq =>
    let q := norm sq
    let pg : Int := pageIdx it.source_page
    if pg < 0 ∨ (pages.length : Int) ≤ pg ∨ q = [] then
      .ok (.mismatch "invalid_page_or_empty_quote")
    else
      let hay := norm (pages.getD pg.toNat [])
      if q ≠ [] ∧ strContains q hay then .ok .matched
      else .ok (.mismatch "quote_not_found_on_page")

/-- The whole matching loop: accumulates `checked`, `matched` and the
ordered mismatch list (each mismatch echoes the item plus its reason,
`{**item, "reason": r}`); a raised exception aborts the loop and
propagates to the boundary handler. -/
def checkClaims (pages : List Strg) : List Para → Except Fault (Nat × Nat × List (Para × String))
  | [] => .ok (0, 0, [])
  | it :: rest =>
    match checkOne pages it with
    | .error f => .error f
    | .ok o =>
      match checkClaims pages rest with
      | .error f => .error f
      | .ok (c, m, ms) =>
        match o with
        | .matched => .ok (c + 1, m + 1, ms)
        | .mismatch r => .ok (c + 1, m, (it, r) :: ms)

/-- Payload of a structured error response: the `errors` list, the
optional `advice` field (cap error) and the optional `limit_bytes`
field (size errors). -/
structure ErrInfo where
  errors : List String
  advice : Option String
  limitBytes : Option Nat
deriving DecidableEq

/-- Body of a `JSONResponse`: an error payload, or the ok payload
`{"status": "ok", "checked": c, "matched": m, "mismatches": ms, "pages": n}`. -/
inductive RespBody
  | err (info : ErrInfo)
  | ok (checked : Nat) (matched : Nat) (mismatches : List (Para × String)) (pages : Nat)
deriving DecidableEq

/-- A `JSONResponse`: transport status code plus body. -/
structure HTTPResponse where
  httpStatus : Nat
  body : RespBody
deriving DecidableEq

/-- A plain one-code error response (`status_code=200`). -/
def err200 (e : String) : HTTPResponse :=
  ⟨200, .err ⟨[e], none, none⟩⟩

/-- What base64 decoding plus PDF extraction do on this payload's
`pdf_b64` value: `decode` is `base64.b64decode(..., validate=True)`
(error = exception message), yielding the decoded byte count and what
`PdfReader`/`extract_text` produce on those bytes. -/
structure RawDoc where
  size : Nat
  extract : Except String (List Strg)

/-- Oracle for the `pdf_b64` input (a `some` value is a truthy string). -/
structure B64Desc where
  decode : Except String RawDoc

/-- What the HTTP fetch of `pdf_url` returned: status, `content-type`
header, and the body bytes (size + extraction behaviour). -/
structure FetchResp where
  status : Nat
  contentType : Strg
  doc : RawDoc

/-- Oracle for the `pdf_url` input: the URL text itself plus the fetch
outcome (error = exception raised by the request). -/
structure UrlDesc where
  url : Strg
  fetch : Except String FetchResp

/-- The `paragraphs` field: missing/null (→ `or []`), present but not a
list, or a list. -/
inductive ParasField
  | missing
  | nonList
  | lst (l : List Para)

/-- The `page_texts` field: missing/null, present but not a list, or a
list of page strings. -/
inductive PTField
  | missing
  | nonList
  | lst (l : List Strg)

/-- The request payload as ducked by `validate_quotes` (`none` for
`pdf_b64`/`pdf_url` covers a missing, null or empty-string value —
all falsy in the `elif` chain). -/
structure Payload where
  paragraphs : ParasField
  page_texts : PTField
  pdf_b64 : Option B64Desc
  pdf_url : Option UrlDesc

/-- Truthiness of `page_texts` in `isinstance(page_texts, list) and page_texts`:
available iff it is a non-empty list. -/
def textsAvail (p : Payload) : Bool :=
  match p.page_texts with
  | .lst (_ :: _) => true
  | _ => false

/-- `"pdf" in content_type.lower()`. -/
def pdfInCT (ct : Strg) : Bool :=
  strContains "pdf".toList (lowerStr ct)

/-- `str(pdf_url).lower().startswith("https://")`. -/
def startsWithHTTPS (u : Strg) : Bool :=
  "https://".toList.isPrefixOf (lowerStr u)

/-- The `pdf_b64` acquisition path (lines 276–289). -/
def b64Path (pypdf2Ok : Bool) (b : B64Desc) : Except ErrInfo (List Strg) :=
  if !pypdf2Ok then .error ⟨["PyPDF2_not_installed"], none, none⟩
  else
    match b.decode with
    | .error e => .error ⟨["b64_decode_failed:" ++ e], none, none⟩
    | .ok raw =>
      if raw.size > MAX_B64_BYTES then
        .error ⟨["pdf_too_large"], none, some MAX_B64_BYTES⟩
      else
        match raw.extract with
        | .error e => .error ⟨["pdf_extract_failed:" ++ e], none, none⟩
        | .ok pages => .ok pages

/-- The `pdf_url` acquisition path (lines 290–307): scheme and library
checks outside the inner `try`; fetch/extraction exceptions map to
`download_or_extract_failed`. -/
def urlPath (httpxOk pypdf2Ok : Bool) (u : UrlDesc) : Except ErrInfo (List Strg) :=
  if !httpxOk then .error ⟨["httpx_not_installed"], none, none⟩
  else if !startsWithHTTPS u.url then .error ⟨["pdf_url_must_be_https"], none, none⟩
  else
    match u.fetch with
    | .error e => .error ⟨["download_or_extract_failed:" ++ e], none, none⟩
    | .ok r =>
      if r.status ≠ 200 || !pdfInCT r.contentType then
        .error ⟨["download_failed_or_not_pdf"], none, none⟩
      else if r.doc.size > MAX_B64_BYTES then
        .error ⟨["pdf_too_large"], none, some MAX_B64_BYTES⟩
      else if !pypdf2Ok then .error ⟨["PyPDF2_not_installed"], none, none⟩
      else
        match r.doc.extract with
        | .error e => .error ⟨["download_or_extract_failed:" ++ e], none, none⟩
        | .ok pages => .ok pages

/-- Input resolution (lines 274–309): `page_texts` must be a non-empty
list, else `pdf_b64` if truthy, else `pdf_url` if truthy, else the
no-input error. -/
def acquirePages (httpxOk pypdf2Ok : Bool) (p : Payload) : Except ErrInfo (List Strg) :=
  match p.page_texts with
  | .lst (t :: ts) => .ok (t :: ts)
  | _ =>
    match p.pdf_b64 with
    | some b => b64Path pypdf2Ok b
    | none =>
      match p.pdf_url with
      | some u => urlPath httpxOk pypdf2Ok u
      | none => .error ⟨["pdf_b64_or_page_texts_or_pdf_url_required"], none, none⟩

/-- The cap error response (lines 262–267). -/
def capError (n : Nat) : HTTPResponse :=
  ⟨200, .err ⟨["too_many_paragraphs:" ++ toString n ++ " > " ++ toString MAX_PARAS_PER_CALL],
    some ("请分批调用，每次不超过 " ++ toString MAX_PARAS_PER_CALL ++ " 段"), none⟩⟩

/-- The body of `validate_quotes` inside the outermost `try` (lines
254–341): paragraph prechecks, cap check, input resolution, the
`empty_page_texts` guard, and the matching loop; an uncaught exception
surfaces as `Except.error`. -/
def validateQuotesBody (httpxOk pypdf2Ok : Bool) (p : Payload) : Except Fault HTTPResponse :=
  let paras : Option (List Para) := match p.paragraphs with
    | .missing => some []
    | .nonList => none
    | .lst l => some l
  match paras with
  | none => .ok (err200 "paragraphs_required")
  | some [] => .ok (err200 "paragraphs_required")
  | some (p1 :: prest) =>
    if (p1 :: prest).length > MAX_PARAS_PER_CALL then
      .ok (capError (p1 :: prest).length)
    else
      match acquirePages httpxOk pypdf2Ok p with
      | .error info => .ok ⟨200, .err info⟩
      | .ok pageTexts =>
        if pageTexts.isEmpty then .ok (err200 "empty_page_texts")
        else
          match checkClaims pageTexts (p1 :: prest) with
          | .error f => .error f
          | .ok (c, m, ms) => .ok ⟨200, .ok c m ms pageTexts.length⟩

/-- `validate_quotes` (lines 246–345): the outermost `try/except`
converts any escaped exception into
`{"status": "error", "errors": [f"unexpected:{type(e).__name__}:{e}"]}`
with transport status 200. -/
def validate_quotes (httpxOk pypdf2Ok : Bool) (p : Payload) : HTTPResponse :=
  match validateQuotesBody httpxOk pypdf2Ok p with
  | .ok r => r
  | .error f => err200 ("unexpected:" ++ f.category ++ ":" ++ f.msg)

/-! ## Theorems -/

/-- Characterization of the status aggregation of `cite_verify`. -/
theorem overallStatus_spec (vs : List Vote) :
    (overallStatus vs = "verified" ↔ ∃ v ∈ vs, v.2 = true)
    ∧ (overallStatus vs = "mismatch" ↔ vs ≠ [] ∧ ∀ v ∈ vs, v.2 = false)
    ∧ (overallStatus vs = "unverified" ↔ vs = []) := by
  have hpos : 0 < vs.countP (fun v => v.2) ↔ ∃ v ∈ vs, v.2 = true := by
    rw [List.countP_pos_iff]
  have hzero : vs.countP (fun v => v.2) = 0 ↔ ∀ v ∈ vs, v.2 = false := by
    rw [List.countP_eq_zero]
    constructor
    · intro h v hv
      have := h v hv
      simpa using this
    · intro h v hv
      simp [h v hv]
  by_cases h1 : vs.countP (fun v => v.2) ≥ 1
  · have hs : overallStatus vs = "verified" := by
      unfold overallStatus
      rw [if_pos h1]
    obtain ⟨v, hv, hvt⟩ := hpos.mp h1
    rw [hs]
    refine ⟨⟨fun _ => ⟨v, hv, hvt⟩, fun _ => rfl⟩,
      ⟨fun h => absurd h (by decide), ?_⟩,
      ⟨fun h => absurd h (by decide), ?_⟩⟩
    · rintro ⟨-, hall⟩
      have hf := hall v hv
      rw [hvt] at hf
      exact absurd hf (by decide)
    · intro h
      subst h
      simp at hv
  · have hz : vs.countP (fun v => v.2) = 0 := by omega
    have hall := hzero.mp hz
    by_cases h2 : vs = []
    · have hs : overallStatus vs = "unverified" := by
        unfold overallStatus
        rw [if_neg h1, if_pos h2]
      rw [hs]
      refine ⟨⟨fun h => absurd h (by decide), ?_⟩,
        ⟨fun h => absurd h (by decide), ?_⟩,
        ⟨fun _ => h2, fun _ => rfl⟩⟩
      · rintro ⟨v, hv, -⟩
        subst h2
        simp at hv
      · rintro ⟨hne, -⟩
        exact absurd h2 hne
    · have hs : overallStatus vs = "mismatch" := by
        unfold overallStatus
        rw [if_neg h1, if_neg h2]
      rw [hs]
      refine ⟨⟨fun h => absurd h (by decide), ?_⟩,
        ⟨fun _ => ⟨h2, hall⟩, fun _ => rfl⟩,
        ⟨fun h => absurd h (by decide), fun h => absurd h h2⟩⟩
      · rintro ⟨v, hv, hvt⟩
        have hf := hall v hv
        rw [hvt] at hf
        exact absurd hf (by decide)
/-- C1: for every run of `cite_verify`, the overall status is
`"verified"` iff at least one cast vote is true, `"mismatch"` iff at
least one vote was cast and none of the cast votes is true, and
`"unverified"` iff zero votes were cast. -/
theorem cite_verify_status_trichotomy (simFn : Strg → Strg → ℚ) (t : Strg) (y : Int)
    (d : Strg) (co : CrOutcome) (po : PmOutcome) (od : DoiOutcome) :
    ((cite_verify simFn t y d co po od).status = "verified"
        ↔ ∃ v ∈ (cite_verify simFn t y d co po od).votes, v.2 = true)
    ∧ ((cite_verify simFn t y d co po od).status = "mismatch"
        ↔ (cite_verify simFn t y d co po od).votes ≠ []
            ∧ ∀ v ∈ (cite_verify simFn t y d co po od).votes, v.2 = false)
    ∧ ((cite_verify simFn t y d co po od).status = "unverified"
        ↔ (cite_verify simFn t y d co po od).votes = []) := by
  have h : (cite_verify simFn t y d co po od).status
      = overallStatus (cite_verify simFn t y d co po od).votes := rfl
  rw [h]
  exact overallStatus_spec _

/-- C2: for every source that successfully returns a candidate record,
the vote cast by that source is exactly `voteMatch` of the similarity
score and the candidate year, and `voteMatch` is true iff the similarity
is at least 9/10 and either the claimed year is 0 or the candidate year
differs from it by at most 1. -/
theorem source_vote_formula (simFn : Strg → Strg → ℚ) (t : Strg) (y : Int) :
    (∀ (r : CrResp) (it : CrItem) (rest : List CrItem) (cy : Int),
        r.status = 200 → r.items = it :: rest → crYearExtract it.dateParts = some cy →
        (crossrefBranch simFn t y (.resp r)).1
          = [("crossref", voteMatch (simFn (lowerStr t) (lowerStr (firstOr it.title))) y cy)])
    ∧ (∀ (pmid : Strg) (art : PmArticle),
        (pubmedBranch simFn t y (.found pmid art)).1
          = [("pubmed",
              voteMatch (simFn (lowerStr t) (lowerStr art.title)) y (pmYearParse art.yearField))])
    ∧ (∀ (c : Char) (ds : Strg) (ot : Option Strg) (j u : Strg) (oy : Option Int),
        (doiBranch simFn t y (c :: ds) (.ok ot j oy u)).1
          = [("doi.org",
              voteMatch (simFn (lowerStr t) (lowerStr (ot.getD []))) y (oy.getD 0))])
    ∧ (∀ (s : ℚ) (cy : Int),
        voteMatch s y cy = true ↔ mkRat 9 10 ≤ s ∧ (y = 0 ∨ (cy - y).natAbs ≤ 1)) := by
  refine ⟨?_, ?_, ?_, ?_⟩
  · intro r it rest cy hst hitems hyear
    obtain ⟨st, items⟩ := r
    simp only at hst hitems
    subst hst
    subst hitems
    simp [crossrefBranch, hyear]
  · intro pmid art
    rfl
  · intro c ds ot j u oy
    simp [doiBranch]
  · intro s cy
    simp [voteMatch, Bool.and_eq_true, Bool.or_eq_true, decide_eq_true_iff, beq_iff_eq]

/-- Witness for the vote-formula theorem: a Crossref response with HTTP
status 200 and one item (missing title, journal and date fields) yields
a single true `crossref` vote when the similarity oracle returns 1 and
the claimed year is 0. -/
theorem source_vote_formula_witness :
    (crossrefBranch (fun _ _ => (1 : ℚ)) [] 0
        (.resp ⟨200, [⟨[], [], none, [], []⟩]⟩)).1 = [("crossref", true)] := by
  have h := (source_vote_formula (fun _ _ => (1 : ℚ)) [] 0).1
    ⟨200, [⟨[], [], none, [], []⟩]⟩ ⟨[], [], none, [], []⟩ [] 0 rfl rfl (by decide)
  rw [h]
  decide

/-- C4: a failure (exception) inside one source's lookup leaves the
other sources' contributions untouched, casts no vote for the failing
source, and appends an error-tagged record for it; `cite_verify` is a
total function, so no exception escapes the operation. -/
theorem source_failure_isolated (simFn : Strg → Strg → ℚ) (t : Strg) (y : Int) :
    (∀ (d : Strg) (e : String) (po : PmOutcome) (od : DoiOutcome),
        (cite_verify simFn t y d (.exn e) po od).votes
            = (pubmedBranch simFn t y po).1 ++ (doiBranch simFn t y d od).1
          ∧ (cite_verify simFn t y d (.exn e) po od).sources
            = SrcRec.error "crossref" e
                :: ((pubmedBranch simFn t y po).2 ++ (doiBranch simFn t y d od).2))
    ∧ (∀ (d : Strg) (co : CrOutcome) (e : String) (od : DoiOutcome),
        (cite_verify simFn t y d co (.exn e) od).votes
            = (crossrefBranch simFn t y co).1 ++ (doiBranch simFn t y d od).1
          ∧ (cite_verify simFn t y d co (.exn e) od).sources
            = (crossrefBranch simFn t y co).2
                ++ (SrcRec.error "pubmed" e :: (doiBranch simFn t y d od).2))
    ∧ (∀ (c : Char) (ds : Strg) (co : CrOutcome) (po : PmOutcome) (e : String),
        (cite_verify simFn t y (c :: ds) co po (.exn e)).votes
            = (crossrefBranch simFn t y co).1 ++ (pubmedBranch simFn t y po).1
          ∧ (cite_verify simFn t y (c :: ds) co po (.exn e)).sources
            = (crossrefBranch simFn t y co).2 ++ (pubmedBranch simFn t y po).2
                ++ [SrcRec.error "doi.org" e]) := by
  refine ⟨?_, ?_, ?_⟩
  · intro d e po od
    constructor <;> simp [cite_verify, crossrefBranch]
  · intro d co e od
    constructor <;> simp [cite_verify, pubmedBranch]
  · intro c ds co po e
    constructor <;> simp [cite_verify, doiBranch]

/-- Counterexample to C6 as stated: a Crossref response with HTTP status
200 and one item whose `issued.date-parts` is `[[]]` (present, with an
empty first tuple).  The claim says the extracted year is 0 and a vote
is still cast; the code instead hits `IndexError` on `[0][0]`, the
`except` records an error stub, and no vote is cast. -/
theorem crossref_year_claim_counterexample :
    (cite_verify (fun _ _ => (1 : ℚ)) [] 0 []
        (.resp ⟨200, [⟨[], [], some [[]], [], []⟩]⟩) .noneFound .notOk).votes = []
    ∧ (cite_verify (fun _ _ => (1 : ℚ)) [] 0 []
        (.resp ⟨200, [⟨[], [], some [[]], [], []⟩]⟩) .noneFound .notOk).sources
      = [SrcRec.error "crossref" indexErrorMsg] := by
  constructor <;> rfl

/-- C6 amended: for a Crossref response with status 200 and a non-empty
item list, the candidate year is the first element of the first
date-part tuple, or 0 when `issued`/`date-parts` is missing or the
date-parts list is empty, and a vote is cast — except when the first
date-part tuple is present but empty, in which case the lookup raises
`IndexError`: an error record is appended and no vote is cast. -/
theorem crossref_year_amended (simFn : Strg → Strg → ℚ) (t : Strg) (y : Int)
    (it : CrItem) (rest : List CrItem) :
    crossrefBranch simFn t y (.resp ⟨200, it :: rest⟩)
      = (match it.dateParts with
         | some ([] :: _) => (([] : List Vote), [SrcRec.error "crossref" indexErrorMsg])
         | dp =>
           ([("crossref",
              voteMatch (simFn (lowerStr t) (lowerStr (firstOr it.title))) y (specCrYear dp))],
            [SrcRec.found "crossref" (firstOr it.title) (firstOr it.containerTitle)
              (specCrYear dp) it.doi it.url
              (simFn (lowerStr t) (lowerStr (firstOr it.title)))])) := by
  obtain ⟨ti, ct, dp, dI, uI⟩ := it
  rcases dp with - | (- | ⟨- | ⟨a, tl⟩, ds⟩)
  · rfl
  · rfl
  · rfl
  · rfl

/-- C3: a quote claim with an integer page number `n` is recorded as
`invalid_page_or_empty_quote` exactly when the 0-based index `n - 1`
falls outside the page-list range or the normalized quote is empty;
otherwise it counts as matched exactly when the normalized quote is a
(case-sensitive) substring of the normalized page text, and is otherwise
recorded with reason `quote_not_found_on_page`. -/
theorem quote_claim_evaluation (pages : List Strg) (s : Strg) (n : Int) :
    (checkOne pages ⟨some s, .num n⟩ = .ok (.mismatch "invalid_page_or_empty_quote")
        ↔ (n - 1 < 0 ∨ (pages.length : Int) ≤ n - 1 ∨ norm s = []))
    ∧ (¬(n - 1 < 0 ∨ (pages.length : Int) ≤ n - 1 ∨ norm s = []) →
        ((checkOne pages ⟨some s, .num n⟩ = .ok .matched
            ↔ strContains (norm s) (norm (pages.getD (n - 1).toNat [])) = true)
          ∧ (strContains (norm s) (norm (pages.getD (n - 1).toNat [])) = false →
              checkOne pages ⟨some s, .num n⟩ = .ok (.mismatch "quote_not_found_on_page")))) := by
  have hrw : checkOne pages ⟨some s, .num n⟩
      = if n - 1 < 0 ∨ (pages.length : Int) ≤ n - 1 ∨ norm s = []
        then Except.ok (.mismatch "invalid_page_or_empty_quote")
        else if norm s ≠ [] ∧ strContains (norm s) (norm (pages.getD (n - 1).toNat []))
          then Except.ok .matched
          else Except.ok (.mismatch "quote_not_found_on_page") := rfl
  rw [hrw]
  by_cases hc : n - 1 < 0 ∨ (pages.length : Int) ≤ n - 1 ∨ norm s = []
  · rw [if_pos hc]
    exact ⟨⟨fun _ => hc, fun _ => rfl⟩, fun hnc => absurd hc hnc⟩
  · rw [if_neg hc]
    have hq : norm s ≠ [] := fun h => hc (Or.inr (Or.inr h))
    by_cases hin : strContains (norm s) (norm (pages.getD (n - 1).toNat [])) = true
    · rw [if_pos ⟨hq, hin⟩]
      refine ⟨⟨fun h => by simp at h, fun h => absurd h hc⟩,
        fun _ => ⟨⟨fun _ => hin, fun _ => rfl⟩, fun hf => ?_⟩⟩
      rw [hin] at hf
      simp at hf
    · rw [if_neg (fun hp => hin hp.2)]
      exact ⟨⟨fun h => by simp at h, fun h => absurd h hc⟩,
        fun _ => ⟨⟨fun h => by simp at h, fun h => absurd h hin⟩, fun _ => rfl⟩⟩

/-- Witness for the per-claim evaluation theorem: one page reading
"The cat sat on the mat.", quote "cat  sat" on page 1 — the index
resolves to 0, the claim is not invalid, and the normalized quote is
found on the page. -/
theorem quote_claim_evaluation_witness :
    ¬((1 : Int) - 1 < 0 ∨ ((["The cat sat on the mat.".toList].length : Int) ≤ 1 - 1)
        ∨ norm "cat  sat".toList = [])
    ∧ checkOne ["The cat sat on the mat.".toList] ⟨some "cat  sat".toList, .num 1⟩
        = .ok .matched := by
  have hnc : ¬((1 : Int) - 1 < 0 ∨ ((["The cat sat on the mat.".toList].length : Int) ≤ 1 - 1)
      ∨ norm "cat  sat".toList = []) := by decide
  refine ⟨hnc, ?_⟩
  exact (((quote_claim_evaluation ["The cat sat on the mat.".toList] "cat  sat".toList 1).2
    hnc).1).mpr (by decide)

/-- C10: a claim whose `source_page` is present but not convertible to
an integer does not make the operation fail: the inner `try/except`
yields page index `-1`, the claim is recorded as a mismatch with reason
`invalid_page_or_empty_quote` exactly as an out-of-range page, and the
remaining claims are still evaluated. -/
theorem bad_page_value_is_invalid (pages : List Strg) (s : Strg) (b : String)
    (rest : List Para) :
    checkOne pages ⟨some s, .bad b⟩ = .ok (.mismatch "invalid_page_or_empty_quote")
    ∧ checkClaims pages (⟨some s, .bad b⟩ :: rest)
      = (checkClaims pages rest).map
          (fun r => (r.1 + 1, r.2.1, (⟨some s, .bad b⟩, "invalid_page_or_empty_quote") :: r.2.2)) := by
  have h1 : checkOne pages ⟨some s, .bad b⟩ = .ok (.mismatch "invalid_page_or_empty_quote") := by
    have hrw : checkOne pages ⟨some s, .bad b⟩
        = if (-1 : Int) < 0 ∨ (pages.length : Int) ≤ -1 ∨ norm s = []
          then Except.ok (.mismatch "invalid_page_or_empty_quote")
          else if norm s ≠ [] ∧ strContains (norm s) (norm (pages.getD (-1 : Int).toNat []))
            then Except.ok .matched
            else Except.ok (.mismatch "quote_not_found_on_page") := rfl
    rw [hrw, if_pos (Or.inl (by decide))]
  refine ⟨h1, ?_⟩
  show (match checkOne pages ⟨some s, .bad b⟩ with
    | Except.error f => Except.error f
    | Except.ok o =>
      match checkClaims pages rest with
      | Except.error f => Except.error f
      | Except.ok (c, m, ms) =>
        match o with
        | ClaimOutcome.matched => Except.ok (c + 1, m + 1, ms)
        | ClaimOutcome.mismatch r => Except.ok (c + 1, m, ((⟨some s, .bad b⟩ : Para), r) :: ms)) = _
  rw [h1]
  cases hr : checkClaims pages rest with
  | error f => rfl
  | ok r =>
    obtain ⟨c, m, ms⟩ := r
    rfl

/-- Invariant of the matching loop: on success, `checked` equals the
number of claims and equals `matched` plus the number of mismatches, and
the mismatch list is the input-ordered selection of the failing claims,
each echoing the claim plus its reason. -/
theorem checkClaims_spec (pages : List Strg) :
    ∀ (l : List Para) (c m : Nat) (ms : List (Para × String)),
      checkClaims pages l = .ok (c, m, ms) →
      c = l.length ∧ c = m + ms.length
        ∧ ms = l.filterMap (fun it =>
            match checkOne pages it with
            | Except.ok (ClaimOutcome.mismatch r) => some (it, r)
            | _ => none) := by
  intro l
  induction l with
  | nil =>
    intro c m ms h
    simp [checkClaims] at h
    obtain ⟨hc, hm, hms⟩ := h
    subst hc
    subst hm
    subst hms
    simp
  | cons it rest ih =>
    intro c m ms h
    cases h1 : checkOne pages it with
    | error f =>
      simp [checkClaims, h1] at h
    | ok o =>
      cases h2 : checkClaims pages rest with
      | error f =>
        simp [checkClaims, h1, h2] at h
      | ok r =>
        obtain ⟨c0, m0, ms0⟩ := r
        obtain ⟨hc0, hm0, hms0⟩ := ih c0 m0 ms0 h2
        cases o with
        | matched =>
          simp [checkClaims, h1, h2] at h
          obtain ⟨hc, hm, hms⟩ := h
          subst hc
          subst hm
          subst hms
          refine ⟨by simp [hc0], by omega, ?_⟩
          rw [List.filterMap_cons]
          simp only [h1]
          exact hms0
        | mismatch rr =>
          simp [checkClaims, h1, h2] at h
          obtain ⟨hc, hm, hms⟩ := h
          subst hc
          subst hm
          subst hms
          refine ⟨by simp [hc0], by simp [hm0, hms0]; omega, ?_⟩
          rw [List.filterMap_cons]
          simp only [h1]
          rw [hms0]

/-- C9: every status-ok result of `validate_quotes` has `checked` equal
to the number of input claims and to `matched` plus the number of
mismatch entries, and the mismatch list is the input-ordered selection
of the failing claims, each echoing the original claim plus a reason. -/
theorem ok_result_invariants (f1 f2 : Bool) (p : Payload) (c m : Nat)
    (ms : List (Para × String)) (pg : Nat)
    (h : validate_quotes f1 f2 p = ⟨200, .ok c m ms pg⟩) :
    ∃ l pages, p.paragraphs = ParasField.lst l ∧ acquirePages f1 f2 p = .ok pages
      ∧ c = l.length ∧ c = m + ms.length
      ∧ ms = l.filterMap (fun it =>
          match checkOne pages it with
          | Except.ok (ClaimOutcome.mismatch r) => some (it, r)
          | _ => none) := by
  unfold validate_quotes at h
  cases hb : validateQuotesBody f1 f2 p with
  | error f =>
    rw [hb] at h
    simp [err200] at h
  | ok r =>
    rw [hb] at h
    subst h
    simp only [validateQuotesBody] at hb
    split at hb
    · simp [err200] at hb
    · simp [err200] at hb
    · rename_i p1 prest hpar
      split at hb
      · simp [capError] at hb
      · rename_i hcap
        split at hb
        · simp at hb
        · rename_i pages ha
          split at hb
          · simp [err200] at hb
          · rename_i he
            split at hb
            · simp at hb
            · rename_i t c0 m0 ms0 hcc
              simp only [Except.ok.injEq, HTTPResponse.mk.injEq, RespBody.ok.injEq] at hb
              obtain ⟨-, hc, hm, hms, -⟩ := hb
              subst hc
              subst hm
              subst hms
              obtain ⟨g1, g2, g3⟩ := checkClaims_spec pages (p1 :: prest) c0 m0 ms0 hcc
              have hpl : p.paragraphs = ParasField.lst (p1 :: prest) := by
                cases hpp : p.paragraphs with
                | missing =>
                  rw [hpp] at hpar
                  simp at hpar
                | nonList =>
                  rw [hpp] at hpar
                  simp at hpar
                | lst l =>
                  rw [hpp] at hpar
                  simp at hpar
                  rw [hpar]
              exact ⟨p1 :: prest, pages, hpl, ha, g1, g2, g3⟩

/-- C5: input resolution uses exactly one path, first available wins
(non-empty `page_texts` list, else truthy `pdf_b64`, else truthy
`pdf_url`): the chosen path's result depends only on that path's input,
and when none of the three forms is available the operation returns the
`pdf_b64_or_page_texts_or_pdf_url_required` error. -/
theorem input_resolution (f1 f2 : Bool) (p : Payload) :
    (∀ t ts, p.page_texts = PTField.lst (t :: ts) → acquirePages f1 f2 p = .ok (t :: ts))
    ∧ (textsAvail p = false → ∀ b, p.pdf_b64 = some b →
        acquirePages f1 f2 p = b64Path f2 b)
    ∧ (textsAvail p = false → p.pdf_b64 = none → ∀ u, p.pdf_url = some u →
        acquirePages f1 f2 p = urlPath f1 f2 u)
    ∧ (textsAvail p = false → p.pdf_b64 = none → p.pdf_url = none →
        acquirePages f1 f2 p = .error ⟨["pdf_b64_or_page_texts_or_pdf_url_required"], none, none⟩)
    ∧ (∀ q qs, p.paragraphs = ParasField.lst (q :: qs) →
        ¬(q :: qs).length > MAX_PARAS_PER_CALL →
        textsAvail p = false → p.pdf_b64 = none → p.pdf_url = none →
        validate_quotes f1 f2 p = err200 "pdf_b64_or_page_texts_or_pdf_url_required") := by
  obtain ⟨pa, pt, pb, pu⟩ := p
  have hfall : textsAvail ⟨pa, pt, pb, pu⟩ = false →
      acquirePages f1 f2 ⟨pa, pt, pb, pu⟩
        = (match pb with
           | some b => b64Path f2 b
           | none =>
             match pu with
             | some u => urlPath f1 f2 u
             | none => .error ⟨["pdf_b64_or_page_texts_or_pdf_url_required"], none, none⟩) := by
    intro hta
    cases pt with
    | missing => rfl
    | nonList => rfl
    | lst l =>
      cases l with
      | nil => rfl
      | cons t ts => simp [textsAvail] at hta
  refine ⟨?_, ?_, ?_, ?_, ?_⟩
  · intro t ts hpt
    simp only at hpt
    subst hpt
    rfl
  · intro hta b hb
    simp only at hb
    subst hb
    rw [hfall hta]
  · intro hta hb u hu
    simp only at hb hu
    subst hb
    subst hu
    rw [hfall hta]
  · intro hta hb hu
    simp only at hb hu
    subst hb
    subst hu
    rw [hfall hta]
  · intro q qs hpar hcap hta hb hu
    simp only at hpar hb hu
    subst hpar
    subst hb
    subst hu
    unfold validate_quotes
    simp only [validateQuotesBody]
    rw [if_neg hcap, hfall hta]
    rfl

/-- Witness for the input-resolution theorem: the `page_texts` path wins
when present even if `pdf_b64` is also given, and a payload with a valid
claim list but no document input gets the structured no-input error. -/
theorem input_resolution_witness :
    acquirePages true true
      ⟨ParasField.lst [⟨some ['a'], .num 1⟩], PTField.lst [['x']],
        some ⟨Except.error "boom"⟩, none⟩ = .ok [['x']]
    ∧ validate_quotes true true
      ⟨ParasField.lst [⟨some ['a'], .num 1⟩], PTField.missing, none, none⟩
        = err200 "pdf_b64_or_page_texts_or_pdf_url_required" := by
  constructor
  · exact (input_resolution true true
      ⟨ParasField.lst [⟨some ['a'], .num 1⟩], PTField.lst [['x']],
        some ⟨Except.error "boom"⟩, none⟩).1 ['x'] [] rfl
  · exact (input_resolution true true
      ⟨ParasField.lst [⟨some ['a'], .num 1⟩], PTField.missing, none, none⟩).2.2.2.2
      ⟨some ['a'], .num 1⟩ [] rfl (by decide) rfl rfl rfl

/-- C7: a claims list longer than the cap of 100 yields the structured
cap error (whose code names the count and the cap and whose advice says
to batch); the result depends only on the list length, so no claim is
checked and no document input is decoded or fetched. -/
theorem cap_exceeded (f1 f2 : Bool) (p : Payload) (l : List Para)
    (hp : p.paragraphs = ParasField.lst l) (hlen : l.length > MAX_PARAS_PER_CALL) :
    validate_quotes f1 f2 p
      = ⟨200, .err ⟨["too_many_paragraphs:" ++ toString l.length ++ " > 100"],
          some "请分批调用，每次不超过 100 段", none⟩⟩ := by
  cases l with
  | nil => simp [MAX_PARAS_PER_CALL] at hlen
  | cons q qs =>
    unfold validate_quotes
    have hbody : validateQuotesBody f1 f2 p = .ok (capError (q :: qs).length) := by
      simp only [validateQuotesBody, hp]
      rw [if_pos hlen]
    rw [hbody]
    show capError (q :: qs).length = _
    unfold capError MAX_PARAS_PER_CALL
    congr 1
    · rw [String.append_assoc]
      congr 1

/-- Witness for the cap theorem: 101 trivial claims trip the cap. -/
theorem cap_exceeded_witness :
    validate_quotes true true
      ⟨ParasField.lst (List.replicate 101 ⟨some [], .absent⟩), PTField.missing, none, none⟩
      = ⟨200, .err ⟨["too_many_paragraphs:101 > 100"],
          some "请分批调用，每次不超过 100 段", none⟩⟩ := by
  have h := cap_exceeded true true
    ⟨ParasField.lst (List.replicate 101 ⟨some [], .absent⟩), PTField.missing, none, none⟩
    (List.replicate 101 ⟨some [], .absent⟩) rfl (by decide)
  rw [h]
  decide

/-- On a successful body, the response was built with transport
status 200. -/
theorem body_ok_status (f1 f2 : Bool) (p : Payload) (r : HTTPResponse)
    (h : validateQuotesBody f1 f2 p = .ok r) : r.httpStatus = 200 := by
  simp only [validateQuotesBody] at h
  split at h
  · simp only [Except.ok.injEq] at h
    rw [← h]
    rfl
  · simp only [Except.ok.injEq] at h
    rw [← h]
    rfl
  · split at h
    · simp only [Except.ok.injEq] at h
      rw [← h]
      rfl
    · split at h
      · simp only [Except.ok.injEq] at h
        rw [← h]
      · split at h
        · simp only [Except.ok.injEq] at h
          rw [← h]
          rfl
        · split at h
          · simp at h
          · simp only [Except.ok.injEq] at h
            rw [← h]

/-- C8: `validate_quotes` is a total function whose response always uses
transport status 200, with the ok-versus-error distinction carried in
the body alone; an exception escaping the handler body is converted at
the boundary into a structured error naming the fault's python type and
message. -/
theorem boundary_totality (f1 f2 : Bool) (p : Payload) :
    (validate_quotes f1 f2 p).httpStatus = 200
    ∧ (∀ f, validateQuotesBody f1 f2 p = .error f →
        validate_quotes f1 f2 p
          = ⟨200, .err ⟨["unexpected:" ++ f.category ++ ":" ++ f.msg], none, none⟩⟩) := by
  constructor
  · unfold validate_quotes
    cases hb : validateQuotesBody f1 f2 p with
    | error f => rfl
    | ok r => exact body_ok_status f1 f2 p r hb
  · intro f hf
    unfold validate_quotes
    rw [hf]
    rfl

/-- Witness for the boundary theorem: a claim whose `source_quote` is
missing makes `norm` raise `TypeError`; the boundary converts it into
the structured `unexpected:...` error with status 200. -/
theorem boundary_totality_witness :
    validate_quotes true true
      ⟨ParasField.lst [⟨none, .absent⟩], PTField.lst [['x']], none, none⟩
      = ⟨200, .err ⟨["unexpected:TypeError:expected string or bytes-like object"],
          none, none⟩⟩ := by
  have h := (boundary_totality true true
    ⟨ParasField.lst [⟨none, .absent⟩], PTField.lst [['x']], none, none⟩).2
    normNoneFault rfl
  rw [h]
  rfl

/-- Witness for the ok-result invariants: two claims against a one-page
text, one found and one not. -/
theorem ok_result_invariants_witness :
    ∃ l pages,
      (⟨ParasField.lst [⟨some "cat".toList, .num 1⟩, ⟨some "dog".toList, .num 1⟩],
          PTField.lst ["The cat sat".toList], none, none⟩ : Payload).paragraphs
        = ParasField.lst l
      ∧ acquirePages true true
          ⟨ParasField.lst [⟨some "cat".toList, .num 1⟩, ⟨some "dog".toList, .num 1⟩],
            PTField.lst ["The cat sat".toList], none, none⟩ = .ok pages
      ∧ 2 = l.length
      ∧ 2 = 1 + [((⟨some "dog".toList, .num 1⟩ : Para), "quote_not_found_on_page")].length
      ∧ [((⟨some "dog".toList, .num 1⟩ : Para), "quote_not_found_on_page")]
          = l.filterMap (fun it =>
              match checkOne pages it with
              | Except.ok (ClaimOutcome.mismatch r) => some (it, r)
              | _ => none) :=
  ok_result_invariants true true
    ⟨ParasField.lst [⟨some "cat".toList, .num 1⟩, ⟨some "dog".toList, .num 1⟩],
      PTField.lst ["The cat sat".toList], none, none⟩
    2 1 [(⟨some "dog".toList, .num 1⟩, "quote_not_found_on_page")] 1 (by decide)

end LitMeta
